import Mathlib

/-!
Verification of `github_roaster.py` (alexfdez1010/talk-crewai).

The program is a single-file Streamlit app: two GitHub fetchers
(`get_github_user_info`, `get_github_repos`) that normalize upstream JSON,
a CrewAI `Flow` with two `@start` producer tasks (`start_user_info`,
`start_repo_info`) and one join task `generate_roast` gated on
`and_(start_user_info, start_repo_info)`, which runs a two-task `Crew`
(analysis task, then roast task) over one opaque LLM generation capability.

Embedding conventions:
- JSON dict fields are modelled three-valued (`JField`): key absent, key
  present with JSON `null`, or key present with a value, so that Python's
  `dict.get(k)`, `dict.get(k, default)` and `x or sentinel` are each
  modelled with their exact semantics (including `or` treating the empty
  string as falsy).
- Python `None` results are Lean `none`; a fallible run is `Except`.
- The flow's run-scoped `self.state` dict is a record of the three keys the
  source ever writes (`username`, `user_info`, `repos`), each `Option` to
  record whether the key is present.
- Real time (`datetime.now()`) is passed in as the `date` parameter.
-/

namespace GithubRoaster

/-- A JSON dict field: `none` = key absent, `some none` = key present with
JSON `null`, `some (some v)` = key present with value `v`. -/
def JField (α : Type) : Type := Option (Option α)

instance (α : Type) [DecidableEq α] : DecidableEq (JField α) := by
  unfold JField; exact inferInstance

instance (α : Type) : Inhabited (JField α) := ⟨(none : Option (Option α))⟩

/-- Python `data.get(k)`: both an absent key and a `null` value give `None`. -/
def jget {α : Type} (f : JField α) : Option α :=
  match f with
  | some (some v) => some v
  | _ => none

/-- Python `data.get(k, d)`: an absent key gives the default `d`, but a key
present with `null` still gives `None`. -/
def jgetD {α : Type} (f : JField α) (d : α) : Option α :=
  match f with
  | none => some d
  | some x => x

/-- Python `x or s` for an optional string: `None` and `""` are falsy and
are replaced by the sentinel `s`. -/
def pyOr (x : Option String) (s : String) : String :=
  match x with
  | none => s
  | some v => if v = "" then s else v

/-- Upstream JSON payload of `GET /users/{username}` (the fields the source
reads; every field may be absent or null). -/
structure UserPayload where
  login : JField String := (none : Option (Option String))
  name : JField String := (none : Option (Option String))
  bio : JField String := (none : Option (Option String))
  followers : JField Int := (none : Option (Option Int))
  following : JField Int := (none : Option (Option Int))
  public_repos : JField Int := (none : Option (Option Int))
  location : JField String := (none : Option (Option String))
  company : JField String := (none : Option (Option String))
  blog : JField String := (none : Option (Option String))
  created_at : JField String := (none : Option (Option String))
  avatar_url : JField String := (none : Option (Option String))
deriving DecidableEq

/-- The dict built by `get_github_user_info` (a plain dict in the source;
the pydantic model `GitHubUserInfo` is never instantiated).  Fields built
with bare `.get` can be Python `None`, hence `Option`. -/
structure UserInfo where
  username : Option String
  name : String
  bio : String
  followers : Option Int
  following : Option Int
  public_repos : Option Int
  location : String
  company : String
  blog : String
  created_at : Option String
  avatar_url : Option String
deriving DecidableEq

/-- An HTTP response for the profile endpoint: status code plus JSON body. -/
structure UserResponse where
  status_code : Nat
  data : UserPayload

/-- `get_github_user_info` (source lines 51-73): `None` unless status 200,
otherwise the normalized dict. -/
def get_github_user_info (resp : UserResponse) : Option UserInfo :=
  if resp.status_code ≠ 200 then none
  else some {
    username := jget resp.data.login
    name := pyOr (jget resp.data.name) "Not provided"
    bio := pyOr (jget resp.data.bio) "No bio provided"
    followers := jgetD resp.data.followers 0
    following := jgetD resp.data.following 0
    public_repos := jgetD resp.data.public_repos 0
    location := pyOr (jget resp.data.location) "Not provided"
    company := pyOr (jget resp.data.company) "Not provided"
    blog := pyOr (jget resp.data.blog) "Not provided"
    created_at := jget resp.data.created_at
    avatar_url := jget resp.data.avatar_url
  }

/-- Upstream JSON payload of one repository object. -/
structure RepoPayload where
  name : JField String := (none : Option (Option String))
  description : JField String := (none : Option (Option String))
  language : JField String := (none : Option (Option String))
  stargazers_count : JField Int := (none : Option (Option Int))
  forks_count : JField Int := (none : Option (Option Int))
  open_issues_count : JField Int := (none : Option (Option Int))
  created_at : JField String := (none : Option (Option String))
  updated_at : JField String := (none : Option (Option String))
  topics : JField (List String) := (none : Option (Option (List String)))
  fork : JField Bool := (none : Option (Option Bool))
deriving DecidableEq

/-- The dict built per repository by `get_github_repos`. -/
structure RepoInfo where
  name : Option String
  description : String
  language : String
  stars : Option Int
  forks : Option Int
  issues : Option Int
  created_at : Option String
  updated_at : Option String
  topics : Option (List String)
  is_fork : Option Bool
deriving DecidableEq

/-- An HTTP response for the repos endpoint: status code plus JSON array. -/
structure RepoResponse where
  status_code : Nat
  data : List RepoPayload

/-- The per-repository dict comprehension body of `get_github_repos`
(source lines 87-98). -/
def processRepo (repo : RepoPayload) : RepoInfo := {
  name := jget repo.name
  description := pyOr (jget repo.description) "No description provided"
  language := pyOr (jget repo.language) "Not specified"
  stars := jgetD repo.stargazers_count 0
  forks := jgetD repo.forks_count 0
  issues := jgetD repo.open_issues_count 0
  created_at := jget repo.created_at
  updated_at := jget repo.updated_at
  topics := jgetD repo.topics []
  is_fork := jgetD repo.fork false
}

/-- `get_github_repos` (source lines 76-100): `None` unless status 200,
otherwise the list comprehension over the JSON array. -/
def get_github_repos (resp : RepoResponse) : Option (List RepoInfo) :=
  if resp.status_code ≠ 200 then none
  else some (resp.data.map processRepo)

/-- Python `str(x)` for a string-or-None value. -/
def pyStrOpt (x : Option String) : String :=
  match x with
  | none => "None"
  | some s => s

/-- Python `str(x)` for an int-or-None value. -/
def pyStrInt (x : Option Int) : String :=
  match x with
  | none => "None"
  | some n => toString n

/-- Python `str(x)` for a bool-or-None value. -/
def pyStrBool (x : Option Bool) : String :=
  match x with
  | none => "None"
  | some b => if b then "True" else "False"

/-- Python `str(x)` for a list-of-strings-or-None value, as interpolated by
an f-string: `['a', 'b']`.  (Python would switch quoting for a topic that
itself contains a quote character; GitHub topic slugs cannot, so that repr
edge is not modelled.) -/
def pyStrList (x : Option (List String)) : String :=
  match x with
  | none => "None"
  | some l =>
      "[" ++ String.intercalate ", " (l.map (fun t => "'" ++ t ++ "'")) ++ "]"

/-- Python `sep.join(parts)`. -/
def joinSep (sep : String) : List String → String
  | [] => ""
  | [a] => a
  | a :: b :: rest => a ++ sep ++ joinSep sep (b :: rest)

/-- The f-string template applied to one repository dict in
`start_repo_info` (source lines 136-146), whitespace included. -/
def renderRepo (repo : RepoInfo) : String :=
  "\n                - Name: " ++ pyStrOpt repo.name ++
  "\n                - Description: " ++ repo.description ++
  "\n                - Language: " ++ repo.language ++
  "\n                - Stars: " ++ pyStrInt repo.stars ++
  "\n                - Forks: " ++ pyStrInt repo.forks ++
  "\n                - Created At: " ++ pyStrOpt repo.created_at ++
  "\n                - Updated At: " ++ pyStrOpt repo.updated_at ++
  "\n                - Topics: " ++ pyStrList repo.topics ++
  "\n                - Is Fork: " ++ pyStrBool repo.is_fork ++
  "\n                "

/-- `"\n\n".join([...])` over the repository list (source lines 134-149). -/
def renderRepos (repos : List RepoInfo) : String :=
  joinSep "\n\n" (repos.map renderRepo)

/-- The flow's run-scoped `self.state` dict.  The source only ever writes
the keys `"username"` (via `kickoff` inputs), `"user_info"` and `"repos"`;
an `Option` field is `none` when the key is absent. -/
structure FlowState where
  username : Option String
  user_info : Option UserInfo
  repos : Option String
deriving DecidableEq

/-- The set of keys present in the state dict, in insertion order. -/
def stateKeys (st : FlowState) : List String :=
  (if st.username.isSome then ["username"] else []) ++
  (if st.user_info.isSome then ["user_info"] else []) ++
  (if st.repos.isSome then ["repos"] else [])

/-- Failure of the opaque generation capability. -/
structure GenError where
  msg : String
deriving DecidableEq

/-- A Python exception escaping a flow method: either a generation-backend
failure propagating out of `crew.kickoff`, or a `KeyError` from a bracket
lookup `self.state[k]` on an absent key. -/
inductive RunError where
  | genError (e : GenError)
  | keyError (k : String)
deriving DecidableEq

/-- One invocation of the opaque generation capability, with the fields the
source interpolates into the task description.  The analysis call carries
the profile, the flattened repos text, the username and the date; the roast
call carries the profile, the username, the date and — as contextual
grounding available only once step 1 has returned — step 1's output. -/
inductive GenCall where
  | analysis (username : String) (user_info : UserInfo) (repos : String) (date : String)
  | roast (username : String) (user_info : UserInfo) (date : String) (context : String)
deriving DecidableEq

/-- The opaque generation capability: one call either yields text or fails. -/
def GenOracle : Type := GenCall → Except GenError String

deriving instance DecidableEq for Except

/-- A trace of generation calls made during a run, each with its outcome. -/
def GenTrace : Type := List (GenCall × Except GenError String)

instance : DecidableEq GenTrace := by
  unfold GenTrace; exact inferInstance

/-- Modelled from the spec: the `Crew` with `tasks=[analysis_task,
roast_task]` executed by `crew.kickoff(inputs=...)` (source lines 239-253)
is code of the `crewai` library, not of this repository.  Per the spec
(sections 4.3 and 6) it is a strictly sequential two-step pipeline over one
opaque generation capability: step 1 (analysis) is one generation call;
step 2 (roast) is one generation call dispatched only after step 1 returns,
receiving step 1's output as contextual grounding; the pipeline's result is
step 2's output alone, and either step failing fails the whole pipeline
with a `GenerationError`.  The second component is the trace of generation
calls made. -/
def crewKickoff (gen : GenOracle) (uname : String) (ui : UserInfo)
    (repos : String) (date : String) : Except GenError String × GenTrace :=
  let c1 := GenCall.analysis uname ui repos date
  match gen c1 with
  | .error e => (.error e, [(c1, .error e)])
  | .ok a1 =>
    let c2 := GenCall.roast uname ui date a1
    match gen c2 with
    | .error e => (.error e, [(c1, .ok a1), (c2, .error e)])
    | .ok out => (.ok out, [(c1, .ok a1), (c2, .ok out)])

/-- Return value of a `@start` task: the error dict
`{"error": msg}` on fetch failure, or the fetched data. -/
inductive StartVal where
  | errVal (msg : String)
  | userVal (ui : UserInfo)
  | reposVal (text : String)
deriving DecidableEq

/-- The upstream GitHub API, fixed for one run: each username maps to the
profile response and the repos response the two `requests.get` calls would
observe. -/
structure Upstream where
  userResp : String → UserResponse
  repoResp : String → RepoResponse

/-- `start_user_info` (source lines 107-121): reads
`self.state["username"]` (a `KeyError` if absent), fetches the profile;
on `None` returns the error dict without touching the state, otherwise
stores the dict under `"user_info"`.  A returned profile dict always has
11 keys, so Python's `if not user_info:` is true exactly when the fetch
returned `None`. -/
def start_user_info (st : FlowState) (up : Upstream) :
    Except RunError (StartVal × FlowState) :=
  match st.username with
  | none => .error (.keyError "username")
  | some uname =>
    match get_github_user_info (up.userResp uname) with
    | none => .ok (.errVal "Failed to fetch user data", st)
    | some ui => .ok (.userVal ui, { st with user_info := some ui })

/-- `start_repo_info` (source lines 123-155): reads
`self.state["username"]`, fetches the repos; Python's `if not repos:` is
true both when the fetch returned `None` and when it returned the empty
list, and then the error dict is returned without touching the state;
otherwise the flattened rendering is stored under `"repos"`. -/
def start_repo_info (st : FlowState) (up : Upstream) :
    Except RunError (StartVal × FlowState) :=
  match st.username with
  | none => .error (.keyError "username")
  | some uname =>
    match get_github_repos (up.repoResp uname) with
    | none => .ok (.errVal "Failed to fetch repositories data", st)
    | some repoList =>
      if repoList = [] then
        .ok (.errVal "Failed to fetch repositories data", st)
      else
        let text := renderRepos repoList
        .ok (.reposVal text, { st with repos := some text })

/-- `generate_roast` (source lines 157-255): guarded by
`if not self.state.get("user_info") or not self.state.get("repos"):
return None`.  `dict.get` yields `None` on an absent key; a stored profile
dict (11 keys) is always truthy, and a stored repos string is falsy exactly
when empty.  Past the guard it builds the two agents and tasks, reads
`self.state["username"]` (a `KeyError` if absent) and runs the crew; on
success it returns the pair `(self.state["user_info"], roast)`.  The second
component is the trace of generation calls made. -/
def generate_roast (st : FlowState) (gen : GenOracle) (date : String) :
    Except RunError (Option (UserInfo × String)) × GenTrace :=
  match st.user_info, st.repos with
  | some ui, some repos =>
    if repos = "" then (.ok none, [])
    else
      match st.username with
      | none => (.error (.keyError "username"), [])
      | some uname =>
        match crewKickoff gen uname ui repos date with
        | (.error e, tr) => (.error (.genError e), tr)
        | (.ok roast, tr) => (.ok (some (ui, roast)), tr)
  | _, _ => (.ok none, [])

/-- The state at the start of a run: `flow.kickoff(inputs={"username":
username})` seeds the state with exactly the `"username"` key. -/
def initState (username : String) : FlowState :=
  { username := some username, user_info := none, repos := none }

/-- The two producer tasks applied to the run's state.  In the source they
run concurrently, but they read only `"username"` (which neither writes)
and write disjoint keys, so sequencing them is observationally faithful:
the barrier `and_(start_user_info, start_repo_info)` releases only after
both have terminally settled. -/
def joinState (st : FlowState) (up : Upstream) : Except RunError FlowState :=
  match start_user_info st up with
  | .error e => .error e
  | .ok (_, st1) =>
    match start_repo_info st1 up with
    | .error e => .error e
    | .ok (_, st2) => .ok st2

/-- One orchestration run: `flow.kickoff` seeds the state, runs both
producers, then the join task; the flow's result is the join task's return
value (`None`, or the pair).  The second component is the trace of
generation calls made during the run. -/
def runFlow (username : String) (up : Upstream) (gen : GenOracle)
    (date : String) :
    Except RunError (Option (UserInfo × String)) × GenTrace :=
  match joinState (initState username) up with
  | .error e => (.error e, [])
  | .ok st => generate_roast st gen date

/-- The value found under the `"repos"` key at join time, as a function of
the repos fetch result. -/
def reposKeyVal (r : Option (List RepoInfo)) : Option String :=
  match r with
  | none => none
  | some l => if l = [] then none else some (renderRepos l)

theorem renderRepo_length_pos (r : RepoInfo) : 0 < (renderRepo r).length := by
  have h : (0 : Nat) < ("\n                - Name: " : String).length := by decide
  simp only [renderRepo, String.length_append]
  omega

theorem renderRepos_ne_empty (l : List RepoInfo) (h : l ≠ []) :
    renderRepos l ≠ "" := by
  intro he
  have hlen : (renderRepos l).length = 0 := by rw [he]; rfl
  match l with
  | [] => exact h rfl
  | [r] =>
    have := renderRepo_length_pos r
    simp only [renderRepos, List.map, joinSep] at hlen
    omega
  | r :: r2 :: rest =>
    have := renderRepo_length_pos r
    simp only [renderRepos, List.map, joinSep, String.length_append] at hlen
    omega

/-- Both producer tasks terminate normally (the `"username"` key is seeded
by `kickoff`), and the state they leave for the join task holds the
username, the profile fetch result and the rendered repos fetch result. -/
theorem start_user_info_eq (uname : String) (st : FlowState) (up : Upstream)
    (h : st.username = some uname) :
    start_user_info st up =
      (match get_github_user_info (up.userResp uname) with
       | none => .ok (.errVal "Failed to fetch user data", st)
       | some ui => .ok (.userVal ui, { st with user_info := some ui })) := by
  unfold start_user_info
  rw [h]

theorem start_repo_info_eq (uname : String) (st : FlowState) (up : Upstream)
    (h : st.username = some uname) :
    start_repo_info st up =
      (match get_github_repos (up.repoResp uname) with
       | none => .ok (.errVal "Failed to fetch repositories data", st)
       | some repoList =>
         if repoList = [] then
           .ok (.errVal "Failed to fetch repositories data", st)
         else
           .ok (.reposVal (renderRepos repoList),
                { st with repos := some (renderRepos repoList) })) := by
  unfold start_repo_info
  rw [h]

theorem joinState_eq (username : String) (up : Upstream) :
    joinState (initState username) up =
      .ok { username := some username,
            user_info := get_github_user_info (up.userResp username),
            repos := reposKeyVal (get_github_repos (up.repoResp username)) } := by
  unfold joinState
  rw [start_user_info_eq username (initState username) up rfl]
  cases hu : get_github_user_info (up.userResp username) <;>
    dsimp only <;>
    rw [start_repo_info_eq username _ up rfl] <;>
    cases hr : get_github_repos (up.repoResp username) <;>
    dsimp only [reposKeyVal]
  · rfl
  · rename_i l
    by_cases hl : l = [] <;> simp [hl, initState]
  · rfl
  · rename_i ui l
    by_cases hl : l = [] <;> simp [hl, initState]

theorem generate_roast_no_user (u : Option String) (r : Option String)
    (gen : GenOracle) (date : String) :
    generate_roast ⟨u, none, r⟩ gen date = (.ok none, []) := by
  cases r <;> rfl

theorem generate_roast_no_repos (u : Option String) (ui : Option UserInfo)
    (gen : GenOracle) (date : String) :
    generate_roast ⟨u, ui, none⟩ gen date = (.ok none, []) := by
  cases ui <;> rfl

/-- On a run where both fetches succeed (with a nonempty repository list),
the run's outcome is exactly the crew pipeline's outcome over the joined
data. -/
theorem runFlow_success_eq (username : String) (up : Upstream)
    (gen : GenOracle) (date : String) (ui : UserInfo) (l : List RepoInfo)
    (hu : get_github_user_info (up.userResp username) = some ui)
    (hr : get_github_repos (up.repoResp username) = some l) (hne : l ≠ []) :
    runFlow username up gen date =
      (match crewKickoff gen username ui (renderRepos l) date with
       | (.error e, tr) => (.error (.genError e), tr)
       | (.ok roast, tr) => (.ok (some (ui, roast)), tr)) := by
  unfold runFlow
  rw [joinState_eq, hu, hr]
  dsimp only [reposKeyVal]
  rw [if_neg hne]
  dsimp only [generate_roast]
  rw [if_neg (renderRepos_ne_empty l hne)]

/-- A run where either fetch returns `None` ends with the flow returning
Python `None` and an empty generation trace. -/
theorem runFlow_notfound (username : String) (up : Upstream) (gen : GenOracle)
    (date : String)
    (h : get_github_user_info (up.userResp username) = none ∨
         get_github_repos (up.repoResp username) = none) :
    runFlow username up gen date = (.ok none, []) := by
  unfold runFlow
  rw [joinState_eq]
  rcases h with h | h
  · rw [h]
    exact generate_roast_no_user _ _ gen date
  · rw [h]
    exact generate_roast_no_repos _ _ gen date

/-- A run where the repos fetch succeeds with the empty list also ends with
the flow returning Python `None` and an empty generation trace. -/
theorem runFlow_empty_repos (username : String) (up : Upstream)
    (gen : GenOracle) (date : String)
    (hr : get_github_repos (up.repoResp username) = some []) :
    runFlow username up gen date = (.ok none, []) := by
  unfold runFlow
  rw [joinState_eq, hr]
  dsimp only [reposKeyVal]
  rw [if_pos rfl]
  exact generate_roast_no_repos _ _ gen date

theorem pyOr_ne_empty (x : Option String) (s : String) (hs : s ≠ "") :
    pyOr x s ≠ "" := by
  cases x with
  | none => exact hs
  | some v =>
    show (if v = "" then s else v) ≠ ""
    by_cases hv : v = ""
    · rw [if_pos hv]; exact hs
    · rw [if_neg hv]; exact hv

/-! ### Concrete fixtures used by witnesses and counterexamples -/

/-- An upstream where both endpoints answer 404 for every username. -/
def up404 : Upstream := ⟨fun _ => ⟨404, {}⟩, fun _ => ⟨404, []⟩⟩

/-- A 200 profile payload: `login` and `followers` set, the rest absent. -/
def okUserPayload : UserPayload :=
  { login := some (some "octocat"), followers := some (some 100) }

/-- A repository payload with only the name set. -/
def okRepoPayload : RepoPayload := { name := some (some "Spoon-Knife") }

/-- An upstream where both fetches succeed for every username. -/
def upOk : Upstream :=
  ⟨fun _ => ⟨200, okUserPayload⟩, fun _ => ⟨200, [okRepoPayload]⟩⟩

/-- An upstream where the profile fetch succeeds but the repos endpoint
answers 200 with an empty array. -/
def upEmptyRepos : Upstream :=
  ⟨fun _ => ⟨200, okUserPayload⟩, fun _ => ⟨200, []⟩⟩

/-- A generation backend that succeeds on both steps. -/
def gen0 : GenOracle := fun c =>
  match c with
  | .analysis _ _ _ _ => .ok "the analysis"
  | .roast _ _ _ _ => .ok "the roast"

/-- A generation backend whose second (roast) step times out. -/
def genRoastFails : GenOracle := fun c =>
  match c with
  | .analysis _ _ _ _ => .ok "the analysis"
  | .roast _ _ _ _ => .error ⟨"generation timed out"⟩

/-- A generation backend whose first (analysis) step fails. -/
def genAnalysisFails : GenOracle := fun _ => .error ⟨"backend unavailable"⟩

def d0 : String := "2026-10-12"

/-- The normalized profile record produced from `okUserPayload`. -/
def ui0 : UserInfo :=
  { username := some "octocat", name := "Not provided",
    bio := "No bio provided", followers := some 100, following := some 0,
    public_repos := some 0, location := "Not provided",
    company := "Not provided", blog := "Not provided", created_at := none,
    avatar_url := none }

/-- The flattened repos text stored by `start_repo_info` under `upOk`. -/
def reposText0 : String := renderRepos (List.map processRepo [okRepoPayload])

/-- A 200 profile response whose JSON body has every field absent. -/
def emptyUserResp : UserResponse := ⟨200, {}⟩

/-- The record `get_github_user_info` builds from `emptyUserResp`. -/
def uiEmpty : UserInfo :=
  { username := none, name := "Not provided", bio := "No bio provided",
    followers := some 0, following := some 0, public_repos := some 0,
    location := "Not provided", company := "Not provided",
    blog := "Not provided", created_at := none, avatar_url := none }

/-- A repository payload with `description` present as JSON null and
`language` absent. -/
def repoNullDesc : RepoPayload :=
  { description := some (none : Option String) }

def repoRespNull : RepoResponse := ⟨200, [repoNullDesc]⟩

/-- The generation-call trace of the successful run under `upOk`/`gen0`. -/
def tr0 : GenTrace :=
  [(.analysis "octocat" ui0 reposText0 d0, .ok "the analysis"),
   (.roast "octocat" ui0 d0 "the analysis", .ok "the roast")]

/-! ### Claims -/

/-- Claim C1: for every subject key for which either the profile fetch or
the repository fetch returns the not-found signal (`None`), the
orchestration run yields the subject-not-found failure (the flow returns
Python `None`, which `main` surfaces as "The username provided does not
exist.") and the generation capability inside `generate_roast` is invoked
zero times (the generation trace is empty). -/
theorem C1_notfound_skips_generation (username : String) (up : Upstream)
    (gen : GenOracle) (date : String)
    (h : get_github_user_info (up.userResp username) = none ∨
         get_github_repos (up.repoResp username) = none) :
    runFlow username up gen date = (.ok none, []) :=
  runFlow_notfound username up gen date h

theorem C1_witness :
    runFlow "ghost-user-404" up404 gen0 d0 = (.ok none, []) :=
  C1_notfound_skips_generation "ghost-user-404" up404 gen0 d0 (Or.inl rfl)

/-- Claim C2: on every successful run the generation capability is invoked
exactly twice — first for the analysis task, then for the roast task — and
the second invocation is dispatched only after the first has returned: the
roast call's context is the analysis call's returned output. -/
theorem C2_two_sequential_calls (username : String) (up : Upstream)
    (gen : GenOracle) (date : String) (ui : UserInfo) (roast : String)
    (tr : GenTrace)
    (h : runFlow username up gen date = (.ok (some (ui, roast)), tr)) :
    ∃ repos a1,
      tr = [(.analysis username ui repos date, .ok a1),
            (.roast username ui date a1, .ok roast)] ∧
      gen (.analysis username ui repos date) = .ok a1 ∧
      gen (.roast username ui date a1) = .ok roast := by
  rcases hu : get_github_user_info (up.userResp username) with _ | ui2
  · rw [runFlow_notfound username up gen date (Or.inl hu)] at h
    simp at h
  rcases hr : get_github_repos (up.repoResp username) with _ | l
  · rw [runFlow_notfound username up gen date (Or.inr hr)] at h
    simp at h
  by_cases hl : l = []
  · subst hl
    rw [runFlow_empty_repos username up gen date hr] at h
    simp at h
  rw [runFlow_success_eq username up gen date ui2 l hu hr hl] at h
  dsimp only [crewKickoff] at h
  rcases hg1 : gen (.analysis username ui2 (renderRepos l) date) with e1 | a1 <;>
    rw [hg1] at h <;> dsimp only at h
  · simp at h
  rcases hg2 : gen (.roast username ui2 date a1) with e2 | out <;>
    rw [hg2] at h <;> dsimp only at h
  · simp at h
  rw [Prod.mk.injEq] at h
  obtain ⟨h1, h2⟩ := h
  rw [Except.ok.injEq, Option.some.injEq, Prod.mk.injEq] at h1
  obtain ⟨hui, hout⟩ := h1
  subst hui
  subst hout
  subst h2
  exact ⟨renderRepos l, a1, rfl, hg1, hg2⟩

theorem C2_witness :
    ∃ repos a1,
      tr0 = [(.analysis "octocat" ui0 repos d0, .ok a1),
             (.roast "octocat" ui0 d0 a1, .ok "the roast")] ∧
      gen0 (.analysis "octocat" ui0 repos d0) = .ok a1 ∧
      gen0 (.roast "octocat" ui0 d0 a1) = .ok "the roast" :=
  C2_two_sequential_calls "octocat" upOk gen0 d0 ui0 "the roast" tr0 (by rfl)

/-- Claim C4: if both fetches succeed but either pipeline generation step
fails, the run terminates with the generation failure as a returned
discriminated result; no partial artifact is returned (the result is not
`ok` at anything), so step 1's analytical output is discarded even when
only step 2 failed. -/
theorem C4_generation_failure_fails_run (username : String) (up : Upstream)
    (gen : GenOracle) (date : String) (ui : UserInfo) (l : List RepoInfo)
    (e : GenError)
    (hu : get_github_user_info (up.userResp username) = some ui)
    (hr : get_github_repos (up.repoResp username) = some l) (hne : l ≠ [])
    (hfail : gen (.analysis username ui (renderRepos l) date) = .error e ∨
      ∃ a1, gen (.analysis username ui (renderRepos l) date) = .ok a1 ∧
        gen (.roast username ui date a1) = .error e) :
    (runFlow username up gen date).1 = .error (.genError e) ∧
    ∀ p, (runFlow username up gen date).1 ≠ .ok p := by
  have hmain : (runFlow username up gen date).1 = .error (.genError e) := by
    rw [runFlow_success_eq username up gen date ui l hu hr hne]
    dsimp only [crewKickoff]
    rcases hfail with h1 | ⟨a1, h1, h2⟩
    · rw [h1]
    · rw [h1]
      dsimp only
      rw [h2]
  refine ⟨hmain, fun p hp => ?_⟩
  rw [hmain] at hp
  exact Except.noConfusion hp

theorem C4_witness :
    (runFlow "octocat" upOk genRoastFails d0).1 =
      .error (.genError ⟨"generation timed out"⟩) :=
  (C4_generation_failure_fails_run "octocat" upOk genRoastFails d0 ui0
    (List.map processRepo [okRepoPayload]) ⟨"generation timed out"⟩
    rfl rfl (by simp) (Or.inr ⟨"the analysis", rfl, rfl⟩)).1

/-- Claim C3 counterexample: on a 200 payload with every optional field
absent, the normalized record is returned but its `created_at`,
`avatar_url` and `username` fields are Python `None` — normalization is
not total over all eleven fields, contrary to the claim. -/
theorem C3_counterexample :
    get_github_user_info emptyUserResp = some uiEmpty ∧
    uiEmpty.created_at = none ∧ uiEmpty.avatar_url = none ∧
    uiEmpty.username = none :=
  ⟨rfl, rfl, rfl, rfl⟩

/-- Claim C3 (amended): normalization is total only for the eight fields
the source defaults — `name`, `bio`, `location`, `company`, `blog` receive
their sentinel whenever the upstream field is absent, null (or empty), and
the three counts default to 0 whenever the key is absent — while
`username`, `created_at` and `avatar_url` are copied through bare `.get`
and may be `None`. -/
theorem C3_defaulted_fields (resp : UserResponse) (ui : UserInfo)
    (h : get_github_user_info resp = some ui) :
    (jget resp.data.name = none → ui.name = "Not provided") ∧
    (jget resp.data.bio = none → ui.bio = "No bio provided") ∧
    (resp.data.followers = none → ui.followers = some 0) ∧
    (resp.data.following = none → ui.following = some 0) ∧
    (resp.data.public_repos = none → ui.public_repos = some 0) ∧
    (jget resp.data.location = none → ui.location = "Not provided") ∧
    (jget resp.data.company = none → ui.company = "Not provided") ∧
    (jget resp.data.blog = none → ui.blog = "Not provided") ∧
    ui.name ≠ "" ∧ ui.bio ≠ "" ∧ ui.location ≠ "" ∧ ui.company ≠ "" ∧
    ui.blog ≠ "" ∧
    ui.username = jget resp.data.login ∧
    ui.created_at = jget resp.data.created_at ∧
    ui.avatar_url = jget resp.data.avatar_url := by
  unfold get_github_user_info at h
  by_cases hs : resp.status_code ≠ 200
  · rw [if_pos hs] at h
    exact absurd h (by simp)
  · rw [if_neg hs] at h
    rw [Option.some.injEq] at h
    subst h
    refine ⟨fun hn => ?_, fun hb => ?_, fun hf => ?_, fun hf2 => ?_,
            fun hp => ?_, fun hlo => ?_, fun hc => ?_, fun hbl => ?_,
            pyOr_ne_empty _ _ (by decide), pyOr_ne_empty _ _ (by decide),
            pyOr_ne_empty _ _ (by decide), pyOr_ne_empty _ _ (by decide),
            pyOr_ne_empty _ _ (by decide), rfl, rfl, rfl⟩ <;>
      simp_all [pyOr, jgetD]

theorem C3_amended_witness :
    uiEmpty.name = "Not provided" ∧ uiEmpty.bio = "No bio provided" ∧
    uiEmpty.followers = some 0 ∧ uiEmpty.following = some 0 ∧
    uiEmpty.public_repos = some 0 ∧ uiEmpty.location = "Not provided" ∧
    uiEmpty.company = "Not provided" ∧ uiEmpty.blog = "Not provided" := by
  obtain ⟨h1, h2, h3, h4, h5, h6, h7, h8, -⟩ :=
    C3_defaulted_fields emptyUserResp uiEmpty rfl
  exact ⟨h1 rfl, h2 rfl, h3 rfl, h4 rfl, h5 rfl, h6 rfl, h7 rfl, h8 rfl⟩

/-- Claim C5: every run returns exactly one of — the complete pair (whose
profile component is the normalized fetch result, so no partial success),
the subject-not-found failure (`ok none`, exactly when a fetch failed or
the repository list was empty), or a generation failure (only when both
fetches had succeeded); a `KeyError` escape never happens.  The three
reachable outcome kinds are distinct constructors of the result type, so
failures of different kinds are distinguishable. -/
theorem C5_result_taxonomy (username : String) (up : Upstream)
    (gen : GenOracle) (date : String) :
    ((runFlow username up gen date).1 = .ok none ↔
       (get_github_user_info (up.userResp username) = none ∨
        get_github_repos (up.repoResp username) = none ∨
        get_github_repos (up.repoResp username) = some [])) ∧
    (∀ k, (runFlow username up gen date).1 ≠ .error (.keyError k)) ∧
    (∀ ui roast, (runFlow username up gen date).1 = .ok (some (ui, roast)) →
       get_github_user_info (up.userResp username) = some ui) ∧
    (∀ e, (runFlow username up gen date).1 = .error (.genError e) →
       get_github_user_info (up.userResp username) ≠ none ∧
       get_github_repos (up.repoResp username) ≠ none) := by
  rcases hu : get_github_user_info (up.userResp username) with _ | ui2
  · rw [runFlow_notfound username up gen date (Or.inl hu)]
    simp
  rcases hr : get_github_repos (up.repoResp username) with _ | l
  · rw [runFlow_notfound username up gen date (Or.inr hr)]
    simp
  by_cases hl : l = []
  · subst hl
    rw [runFlow_empty_repos username up gen date hr]
    simp
  rw [runFlow_success_eq username up gen date ui2 l hu hr hl]
  dsimp only [crewKickoff]
  rcases hg1 : gen (.analysis username ui2 (renderRepos l) date) with e1 | a1 <;>
    dsimp only
  · simp [hl]
  rcases hg2 : gen (.roast username ui2 date a1) with e2 | out <;> dsimp only
  · simp [hl]
  simp [hl]

theorem C5_witness :
    (runFlow "ghost-user-404" up404 gen0 d0).1 = .ok none :=
  (C5_result_taxonomy "ghost-user-404" up404 gen0 d0).1.mpr (Or.inl rfl)

/-- Claim C6: when the join task activates on a state missing either of
the keys `"user_info"` or `"repos"`, it returns the failure value `None`
(no `KeyError` is raised) and makes no generation call. -/
theorem C6_join_missing_key_no_crash (st : FlowState) (gen : GenOracle)
    (date : String) (h : st.user_info = none ∨ st.repos = none) :
    generate_roast st gen date = (.ok none, []) := by
  obtain ⟨u, uiF, rF⟩ := st
  rcases h with h | h
  · dsimp only at h
    subst h
    exact generate_roast_no_user u rF gen date
  · dsimp only at h
    subst h
    exact generate_roast_no_repos u uiF gen date

theorem C6_witness :
    generate_roast ⟨some "octocat", none, none⟩ gen0 d0 = (.ok none, []) :=
  C6_join_missing_key_no_crash ⟨some "octocat", none, none⟩ gen0 d0
    (Or.inl rfl)

/-- The shared state observed by the join task on the successful concrete
run under `upOk`. -/
def joinStateOk : FlowState :=
  { username := some "octocat", user_info := some ui0,
    repos := some reposText0 }

/-- Claim C7 counterexample: on a concrete run where both producers
succeed, the shared state at join time holds three keys, not two — the
`"username"` key written by `kickoff` is still present alongside
`"user_info"` and `"repos"`. -/
theorem C7_counterexample :
    joinState (initState "octocat") upOk = .ok joinStateOk ∧
    stateKeys joinStateOk = ["username", "user_info", "repos"] ∧
    stateKeys joinStateOk ≠ ["user_info", "repos"] :=
  ⟨rfl, rfl, by decide⟩

/-- Claim C7 (amended): once both producers succeed, the shared state
holds exactly the three keys `"username"`, `"user_info"` and `"repos"` —
the subject key seeded at kickoff, the normalized ProfileRecord, and the
flattened textual rendering of the repository list — and no other key. -/
theorem C7_join_state_three_keys (username : String) (up : Upstream)
    (ui : UserInfo) (l : List RepoInfo)
    (hu : get_github_user_info (up.userResp username) = some ui)
    (hr : get_github_repos (up.repoResp username) = some l) (hne : l ≠ []) :
    joinState (initState username) up =
      .ok { username := some username, user_info := some ui,
            repos := some (renderRepos l) } ∧
    stateKeys { username := some username, user_info := some ui,
                repos := some (renderRepos l) } =
      ["username", "user_info", "repos"] := by
  constructor
  · rw [joinState_eq, hu, hr]
    dsimp only [reposKeyVal]
    rw [if_neg hne]
  · rfl

theorem C7_amended_witness :
    joinState (initState "octocat") upOk =
      .ok { username := some "octocat", user_info := some ui0,
            repos := some (renderRepos (List.map processRepo [okRepoPayload])) } ∧
    stateKeys { username := some "octocat", user_info := some ui0,
                repos := some (renderRepos (List.map processRepo [okRepoPayload])) } =
      ["username", "user_info", "repos"] :=
  C7_join_state_three_keys "octocat" upOk ui0
    (List.map processRepo [okRepoPayload]) rfl rfl (by simp)

/-- Claim C8: a 200 repos response carrying an empty array is treated like
a failed lookup: `get_github_repos` returns the empty list, Python's
`if not repos:` then makes `start_repo_info` return the error dict without
writing the `"repos"` key, and the whole run fails with `None` and zero
generation calls — a user with no public repositories cannot be processed
successfully. -/
theorem C8_empty_repo_list_fails (username : String) (up : Upstream)
    (gen : GenOracle) (date : String)
    (h : up.repoResp username = ⟨200, []⟩) :
    get_github_repos (up.repoResp username) = some [] ∧
    (∀ st : FlowState, st.username = some username →
       start_repo_info st up =
         .ok (.errVal "Failed to fetch repositories data", st)) ∧
    runFlow username up gen date = (.ok none, []) := by
  have hr : get_github_repos (up.repoResp username) = some [] := by
    rw [h]
    rfl
  refine ⟨hr, ?_, runFlow_empty_repos username up gen date hr⟩
  intro st hst
  rw [start_repo_info_eq username st up hst, hr]
  rfl

theorem C8_witness :
    get_github_repos (upEmptyRepos.repoResp "octocat") = some [] ∧
    start_repo_info (initState "octocat") upEmptyRepos =
      .ok (.errVal "Failed to fetch repositories data", initState "octocat") ∧
    runFlow "octocat" upEmptyRepos gen0 d0 = (.ok none, []) := by
  obtain ⟨h1, h2, h3⟩ :=
    C8_empty_repo_list_fails "octocat" upEmptyRepos gen0 d0 rfl
  exact ⟨h1, h2 (initState "octocat") rfl, h3⟩

/-- Claim C9: every record of a successful `get_github_repos` call is the
normalization of an upstream repository payload, and whenever the upstream
description (resp. primary language) is absent or null, the normalized
description is exactly "No description provided" (resp. the language is
exactly "Not specified"). -/
theorem C9_repo_sentinels (resp : RepoResponse) (l : List RepoInfo)
    (h : get_github_repos resp = some l) :
    l = resp.data.map processRepo ∧
    ∀ p ∈ resp.data,
      ((p.description = none ∨ p.description = some none) →
         (processRepo p).description = "No description provided") ∧
      ((p.language = none ∨ p.language = some none) →
         (processRepo p).language = "Not specified") := by
  constructor
  · unfold get_github_repos at h
    by_cases hs : resp.status_code ≠ 200
    · rw [if_pos hs] at h
      exact absurd h (by simp)
    · rw [if_neg hs] at h
      rw [Option.some.injEq] at h
      exact h.symm
  · intro p _
    constructor
    · rintro (hd | hd) <;> simp [processRepo, jget, pyOr, hd]
    · rintro (hd | hd) <;> simp [processRepo, jget, pyOr, hd]

theorem C9_witness :
    (processRepo repoNullDesc).description = "No description provided" ∧
    (processRepo repoNullDesc).language = "Not specified" := by
  obtain ⟨-, h2⟩ :=
    C9_repo_sentinels repoRespNull (List.map processRepo [repoNullDesc]) rfl
  have hp := h2 repoNullDesc (by simp [repoRespNull])
  exact ⟨hp.1 (Or.inr rfl), hp.2 (Or.inl rfl)⟩

/-- Two successive profile fetches for the same key against the same
upstream, exactly as two sequential calls would observe it. -/
def fetchProfileTwice (up : Upstream) (username : String) :
    Option UserInfo × Option UserInfo :=
  (get_github_user_info (up.userResp username),
   get_github_user_info (up.userResp username))

/-- Two successive repos fetches for the same key against the same
upstream. -/
def fetchReposTwice (up : Upstream) (username : String) :
    Option (List RepoInfo) × Option (List RepoInfo) :=
  (get_github_repos (up.repoResp username),
   get_github_repos (up.repoResp username))

/-- Claim C10: the two fetchers are idempotent and deterministic in the
upstream state: calling the same fetcher twice with the same key against
the same upstream responses yields equal results.  In the embedding both
fetchers are pure functions of the response alone — matching the source,
whose fetcher bodies read no mutable state outside the HTTP response. -/
theorem C10_fetchers_idempotent (up : Upstream) (username : String) :
    (fetchProfileTwice up username).1 = (fetchProfileTwice up username).2 ∧
    (fetchReposTwice up username).1 = (fetchReposTwice up username).2 :=
  ⟨rfl, rfl⟩

end GithubRoaster
